import Mathlib

/-!
# Verification of the ola-fintech backend core

Shallow embedding of the credit-eligibility engine, the OTP engine and the
admin aggregation of the ola-fintech backend (`app/services/app_service.py`,
`app/services/user_service.py` and the repository layer), together with
theorems settling the specification claims.

Modelling conventions:
* A MongoDB collection is a `List` of documents in insertion ("natural")
  order; `find_one` is `List.find?`, `delete_one` erases the first match
  (`List.eraseP`), `insert_one` appends, and a `find(...).skip(s).limit(l)`
  cursor is `(filter).drop s |>.take l`.
* Timestamps (`datetime` values) are seconds as `Int`; `timedelta(days=n)`
  is `n * 86400`.  The stored ISO-format `otpTimeStamp` strings compare
  lexicographically exactly as their instants compare, so the Mongo `$gte`
  on them is `≤` on the embedded instants.
* `fechaCuota` is stored as a `"%d/%m/%Y"` string; we embed the parsed
  value as a day/month/year record, and `datetime.strptime` as the civil
  day-count of that date at midnight (Gregorian `daysFromCivil`).
* Python exceptions raised by a service are an `Except CustomError` result;
  where the source catches its own exceptions (`send_otp`) the handler is
  embedded explicitly.
* The random OTP code and the Twilio gateway outcome are oracle inputs.
-/

namespace OlaFintech

/-- `StatusEnum` from `app/models/credit.py`. -/
inductive StatusEnum
  | pending
  | rejected
  | active
  | paid
  | extended
deriving DecidableEq, Repr

/-- `ErrorTypes` from `app/models/exceptions.py` (spelling as in source). -/
inductive ErrorTypes
  | bussiness
  | invalid
  | twilio
deriving DecidableEq, Repr

/-- `CustomError` from `app/models/exceptions.py`. -/
structure CustomError where
  message : String
  errorType : ErrorTypes
deriving DecidableEq, Repr

/-- A calendar date as written in the stored `"%d/%m/%Y"` strings. -/
structure DateDMY where
  day : Nat
  month : Nat
  year : Int
deriving DecidableEq, Repr

/-- Number of days from the civil epoch 1970-01-01 to the given Gregorian
date (standard `days_from_civil` algorithm); embeds the ordering that
`datetime` values parsed by `strptime` carry. -/
def daysFromCivil (dt : DateDMY) : Int :=
  let y : Int := if dt.month ≤ 2 then dt.year - 1 else dt.year
  let m : Int := dt.month
  let d : Int := dt.day
  let era : Int := (if 0 ≤ y then y else y - 399) / 400
  let yoe : Int := y - era * 400
  let doy : Int := (153 * (if 2 < m then m - 3 else m + 9) + 2) / 5 + d - 1
  let doe : Int := yoe * 365 + yoe / 4 - yoe / 100 + doy
  era * 146097 + doe - 719468

/-- Seconds per day, the unit behind `timedelta(days := n)`. -/
def secondsPerDay : Int := 86400

/-- `datetime.strptime(s, "%d/%m/%Y")`: the instant at midnight of the
parsed date, in seconds. -/
def strptimeDMY (dt : DateDMY) : Int := daysFromCivil dt * secondsPerDay

/-- `ExtensionField` from `app/models/credit.py`. -/
structure ExtensionField where
  fechaPago : String
  montoPago : Rat
deriving DecidableEq, Repr

/-- A document of the `credit` collection: the fields of
`CreditRequestData`/`CreditDB` from `app/models/credit.py`.  `status` is
optional exactly as in `CreditRequestData`; amounts are embedded as `Rat`. -/
structure CreditDoc where
  uid : String
  status : Option StatusEnum
  montoSolicitado : Rat
  interesCorriente : Rat
  administracion : Rat
  iva : Rat
  totalPagar : Rat
  fechaCuota : DateDMY
  otpCode : String
  otpTimeStamp : Int
  montoAprobado : Option String := none
  extensionRequested : Option Bool := none
  extension : Option ExtensionField := none
deriving DecidableEq, Repr

/-- The filter `{"uid": uid, "$or": [{"status": "active"}, {"status": "pending"}]}`
used by `AppService.create_credit_request`. -/
def isActiveOrPendingFor (uid : String) (c : CreditDoc) : Bool :=
  c.uid = uid && (c.status = some StatusEnum.active || c.status = some StatusEnum.pending)

/-- The filter `{"uid": uid, "$or": [{"status": "active"}, {"status": "pending"},
{"status": "extended"}]}` used by `AppService.get_credit`. -/
def isBlockingFor (uid : String) (c : CreditDoc) : Bool :=
  c.uid = uid &&
    (c.status = some StatusEnum.active || c.status = some StatusEnum.pending ||
      c.status = some StatusEnum.extended)

/-- The filter `{"uid": uid, "status": "rejected", "otpTimeStamp": {"$gte":
(now - timedelta(days := 180)).isoformat()}}` used by both `get_credit` and
`create_credit_request`. -/
def isRecentRejectedFor (uid : String) (now : Int) (c : CreditDoc) : Bool :=
  c.uid = uid && c.status = some StatusEnum.rejected &&
    decide (now - 180 * secondsPerDay ≤ c.otpTimeStamp)

/-- The filter `{"uid": uid, "status": "active"}` used by
`AppService.request_extension_credit_payment`. -/
def isActiveFor (uid : String) (c : CreditDoc) : Bool :=
  c.uid = uid && c.status = some StatusEnum.active

/-- `AppService.get_credit`: the blocking-status request for `uid` if the
store holds one, else the first stored rejected request in the 180-day
window, else `none`. -/
def get_credit (store : List CreditDoc) (now : Int) (uid : String) : Option CreditDoc :=
  match store.find? (isBlockingFor uid) with
  | some activeCredit => some activeCredit
  | none => store.find? (isRecentRejectedFor uid now)

/-- `AppService.create_credit_request`: rejects when an active/pending
request exists, then when a rejected request inside the 180-day cooldown
exists, otherwise inserts the request with `status` set to `pending`. -/
def create_credit_request (store : List CreditDoc) (now : Int) (credit : CreditDoc) :
    Except CustomError (List CreditDoc) :=
  if (store.find? (isActiveOrPendingFor credit.uid)).isSome then
    Except.error ⟨"Ya tienes un credito/peiticion activa.", ErrorTypes.bussiness⟩
  else if (store.find? (isRecentRejectedFor credit.uid now)).isSome then
    Except.error ⟨"Debes esperar 6 meses para pedir tu crédito.", ErrorTypes.bussiness⟩
  else
    Except.ok (store ++ [{ credit with status := some StatusEnum.pending }])

/-- `update_one({"_id": doc.id}, {"$set": ...})` applied to the document
`find_one` just returned: replaces the first document satisfying the filter
that located it. -/
def replaceFirst (p : CreditDoc → Bool) (new : CreditDoc) : List CreditDoc → List CreditDoc
  | [] => []
  | c :: cs => if p c then new :: cs else c :: replaceFirst p new cs

/-- `AppService.request_extension_credit_payment`: needs an `active` request
for `uid`; its due date parsed from `"%d/%m/%Y"` must not be `≤ now - 1 day`;
on success sets `extensionRequested := true` on that request. -/
def request_extension_credit_payment (store : List CreditDoc) (now : Int) (uid : String) :
    Except CustomError (List CreditDoc) :=
  match store.find? (isActiveFor uid) with
  | some activeCredit =>
    let fechaCuota := strptimeDMY activeCredit.fechaCuota
    let yesterday := now - secondsPerDay
    if fechaCuota ≤ yesterday then
      Except.error ⟨"Este credito no es valido para pedir extension de cupo", ErrorTypes.bussiness⟩
    else
      Except.ok (replaceFirst (isActiveFor uid)
        { activeCredit with extensionRequested := some true } store)
  | none => Except.error ⟨"Este usuario no tiene un credito activo", ErrorTypes.bussiness⟩

/-- A document of the `otp` collection: the fields of `OTPRequest` from
`app/models/otp.py` (`sentTimeStamp` embedded as an instant in seconds). -/
structure OTPDoc where
  uid : String
  code : String
  sentTimeStamp : Int
deriving DecidableEq, Repr

/-- `OTPRepository.insert`: `delete_one({"uid": otp.uid})` (removes the
first stored record for that uid, if any) followed by `insert_one(otp)`. -/
def otpInsert (otps : List OTPDoc) (otp : OTPDoc) : List OTPDoc :=
  (otps.eraseP (fun r => r.uid = otp.uid)) ++ [otp]

/-- `OTPRepository.delete`: `delete_one({"uid": uid})`. -/
def otpDelete (otps : List OTPDoc) (uid : String) : List OTPDoc :=
  otps.eraseP (fun r => r.uid = uid)

/-- A document of the `users` collection.  `UserDB` in
`app/models/user.py` declares `uid`, `documentType`, `documentNumber`,
`email`, `phoneNumber` and the optional `admin` flag; the admin listing
additionally filters on document-level `username` and `status` fields that
the model does not declare, so they appear here as optional document
fields (absent means the Mongo field does not exist). -/
structure UserDoc where
  uid : String
  documentType : String
  documentNumber : String
  email : String
  phoneNumber : String
  username : Option String := none
  admin : Option Bool := none
  status : Option String := none
deriving DecidableEq, Repr

/-- `SentDetails` from `app/models/message.py` (the fields
`TwilioRepository._send_message` fills in). -/
structure SentDetails where
  sid : String
  dateCreated : String
  dateQueued : String
  to_ : String
  from_ : String
  body : String
  status : String
deriving DecidableEq, Repr

/-- `UserService.send_otp`.  The whole body runs inside
`try: ... except TwilioRestException / ValueError / Exception: print(...)`,
so every raised exception — including the `CustomError` for a missing user —
is caught and turned into a bare `return` (`None`).
`TwilioRepository._send_message` itself catches every exception and
returns `None` on failure, so `send_sms` never raises: its outcome
(`smsResult`, the gateway oracle) is ignored and the OTP record is
inserted regardless.  `otpCode` is the oracle for
`str(random.randint(100000, 999999))` and `now` for `datetime.utcnow()`.
Returns the Python return value (`Some true` or `None`) and the resulting
`otp` collection. -/
def send_otp (users : List UserDoc) (otps : List OTPDoc) (uid : String)
    (otpCode : String) (now : Int) (smsResult : Option SentDetails) :
    Option Bool × List OTPDoc :=
  let tryBody : Except CustomError (List OTPDoc) :=
    match users.find? (fun u => u.uid = uid) with
    | none => Except.error ⟨"Theres no credentials in this request.", ErrorTypes.invalid⟩
    | some userDb =>
      let _sent := smsResult
      Except.ok (otpInsert otps { uid := userDb.uid, code := otpCode, sentTimeStamp := now })
  match tryBody with
  | Except.ok otps2 => (some true, otps2)
  | Except.error _ => (none, otps)

/-- `UserService.verify_otp`: looks up the record for `uid`; raises
`CustomError(_, "invalid")` when there is none or its code differs from the
supplied one; on match deletes the record.  Returns the outcome together
with the resulting `otp` collection (unchanged on the failure paths, since
the source raises before touching the store). -/
def verify_otp (otps : List OTPDoc) (uid code : String) :
    Except CustomError Unit × List OTPDoc :=
  match otps.find? (fun r => r.uid = uid) with
  | none =>
    (Except.error ⟨"Pide un nuevo codigo, intenta de nuevo.", ErrorTypes.invalid⟩, otps)
  | some currentCode =>
    if currentCode.code ≠ code then
      (Except.error ⟨"El código es incorrecto, intenta de nuevo.", ErrorTypes.invalid⟩, otps)
    else
      (Except.ok (), otpDelete otps uid)

/-- A document of the `messages` collection; the enrichment only filters it
on `uid`, so only that field matters here besides an opaque payload. -/
structure MessageDoc where
  uid : String
  body : String
deriving DecidableEq, Repr

/-- The shape of the dict `UserService._build_user_query` returns.  The
admin disjunction `{"$or": [{"admin": False}, {"admin": {"$exists":
False}}]}` is always present.  When `search_term` is truthy the source
executes `query["$and"] = [query, {search-$or}]`, whose first element is
the very dict being assigned into — after the assignment the dict contains
itself (`query["$and"][0] is query`), so the built document is circular;
`selfReferential` records that.  `statusFilter` records the trailing
`query["status"] = ...` assignment. -/
structure UserQuery where
  selfReferential : Bool
  searchTerm : String
  statusFilter : Option String
deriving DecidableEq, Repr

/-- `UserService._build_user_query`: always the admin filter; a truthy
(non-empty) `search_term` adds the `$and` whose first element is the query
dict itself, making the document self-referential; then `status` is set to
`"pending"` when `show_pending`, else to `"active"` when `show_active`. -/
def build_user_query (searchTerm : String) (showPending showActive : Bool) : UserQuery :=
  { selfReferential := searchTerm ≠ ""
    searchTerm := searchTerm
    statusFilter :=
      if showPending then some "pending"
      else if showActive then some "active"
      else none }

/-- The failure the MongoDB driver raises when asked to run a filter
document it cannot BSON-encode: a self-referential dict never encodes
(the encoder recurses forever), so `count_documents`/`find` raise instead
of querying. -/
inductive DriverError
  | circularDocument
deriving DecidableEq, Repr

/-- The predicate a non-circular `_build_user_query` result denotes on a
user document: `admin` is `False` or the field is absent, and the `status`
field equals the filter value when one was set.  (Only the empty-search
query is non-circular, so no search conjunct arises.) -/
def matchesUserQuery (q : UserQuery) (u : UserDoc) : Bool :=
  (u.admin = some false || u.admin = none)
  && (match q.statusFilter with
      | none => true
      | some s => u.status = some s)

/-- One entry of the list `UserService._add_related_data_to_users` builds:
a user together with the related credit and message documents fetched for
that user. -/
structure EnrichedUser where
  user : UserDoc
  credits : List CreditDoc
  messages : List MessageDoc
deriving DecidableEq, Repr

/-- `CreditRepository.query({"uid": uid})` / `MessageRepository.filter_messages`
as called by the enrichment: no sort, default `skip = 0`, default
`limit = 100`, `to_list(length := limit)`. -/
def relatedQueryLimit : Nat := 100

/-- `UserService._add_related_data_to_users`: for each user fetch the
credit documents and message documents with that `uid` through the
repository defaults. -/
def add_related_data_to_users (users : List UserDoc) (creditStore : List CreditDoc)
    (msgStore : List MessageDoc) : List EnrichedUser :=
  users.map (fun u =>
    { user := u
      credits := ((creditStore.filter (fun c => c.uid = u.uid)).drop 0).take relatedQueryLimit
      messages := ((msgStore.filter (fun m => m.uid = u.uid)).drop 0).take relatedQueryLimit })

/-- The value `UserService.all_users` returns. -/
structure AllUsersResult where
  total : Nat
  users : List EnrichedUser
deriving DecidableEq, Repr

/-- `UserService.all_users`: builds the query, computes
`skip = (page - 1) * limit`, counts all matching users
(`count_documents`), fetches the page (`filter_users` with `skip` and
`limit`) and enriches it.  When the built query is self-referential (every
non-empty `search_term`), `count_documents` — the first driver call —
raises on BSON-encoding the circular document, so the whole operation
fails with that infrastructure error instead of filtering.  Embedded for
`page ≥ 1` (`page : Nat`; the routing layer defaults to 1). -/
def all_users (userStore : List UserDoc) (creditStore : List CreditDoc)
    (msgStore : List MessageDoc) (searchTerm : String)
    (showPending showActive : Bool) (page limit : Nat) :
    Except DriverError AllUsersResult :=
  let query := build_user_query searchTerm showPending showActive
  let skip := (page - 1) * limit
  if query.selfReferential then
    Except.error DriverError.circularDocument
  else
    let totalUsers := (userStore.filter (matchesUserQuery query)).length
    let users := ((userStore.filter (matchesUserQuery query)).drop skip).take limit
    Except.ok
      { total := totalUsers
        users := add_related_data_to_users users creditStore msgStore }

/-- A concrete credit document for witnesses and counterexamples. -/
def sampleCredit (uid : String) (status : Option StatusEnum) (ts : Int) : CreditDoc :=
  { uid := uid
    status := status
    montoSolicitado := 500000
    interesCorriente := 10
    administracion := 5
    iva := 19
    totalPagar := 600000
    fechaCuota := ⟨15, 6, 2025⟩
    otpCode := "123456"
    otpTimeStamp := ts }

/-- A concrete user document for witnesses and counterexamples. -/
def sampleUser (uid : String) : UserDoc :=
  { uid := uid
    documentType := "CC"
    documentNumber := "100200300"
    email := "ana@example.com"
    phoneNumber := "3001234567" }

/- ------------------------------------------------------------------ -/
/- Theorems                                                            -/
/- ------------------------------------------------------------------ -/

theorem isActiveOrPendingFor_iff (uid : String) (c : CreditDoc) :
    isActiveOrPendingFor uid c = true ↔
      c.uid = uid ∧ (c.status = some StatusEnum.active ∨ c.status = some StatusEnum.pending) := by
  simp [isActiveOrPendingFor]

theorem isBlockingFor_iff (uid : String) (c : CreditDoc) :
    isBlockingFor uid c = true ↔
      c.uid = uid ∧ (c.status = some StatusEnum.active ∨ c.status = some StatusEnum.pending ∨
        c.status = some StatusEnum.extended) := by
  simp [isBlockingFor, or_assoc]

theorem isRecentRejectedFor_iff (uid : String) (now : Int) (c : CreditDoc) :
    isRecentRejectedFor uid now c = true ↔
      c.uid = uid ∧ c.status = some StatusEnum.rejected ∧
        now - 180 * secondsPerDay ≤ c.otpTimeStamp := by
  simp [isRecentRejectedFor, and_assoc]

/-- C1 counterexample: the only stored request for `"u1"` has blocking
status `extended`, yet `create_credit_request` does not fail — it inserts a
new `pending` request. -/
theorem create_credit_request_extended_not_rejected :
    isBlockingFor "u1" (sampleCredit "u1" (some StatusEnum.extended) 0) = true ∧
    create_credit_request [sampleCredit "u1" (some StatusEnum.extended) 0] 0
        (sampleCredit "u1" none 0)
      = Except.ok [sampleCredit "u1" (some StatusEnum.extended) 0,
          sampleCredit "u1" (some StatusEnum.pending) 0] := by
  exact ⟨by decide, by rfl⟩

/-- C1 (amended): `create_credit_request` fails with the
`"Ya tienes un credito/peiticion activa."` business-rule violation exactly
when an `active` or `pending` request exists for the same uid; an
`extended` request does not block a new request. -/
theorem create_credit_request_blocking_iff (store : List CreditDoc) (now : Int)
    (credit : CreditDoc) :
    create_credit_request store now credit
        = Except.error ⟨"Ya tienes un credito/peiticion activa.", ErrorTypes.bussiness⟩
      ↔ ∃ c ∈ store, c.uid = credit.uid ∧
          (c.status = some StatusEnum.active ∨ c.status = some StatusEnum.pending) := by
  cases h1 : store.find? (isActiveOrPendingFor credit.uid) with
  | some c =>
    have hmem := List.mem_of_find?_eq_some h1
    have hp := List.find?_some h1
    rw [isActiveOrPendingFor_iff] at hp
    constructor
    · intro _
      exact ⟨c, hmem, hp⟩
    · intro _
      simp [create_credit_request, h1]
  | none =>
    have hnone : ∀ c ∈ store, ¬ isActiveOrPendingFor credit.uid c = true :=
      List.find?_eq_none.mp h1
    constructor
    · intro hEq
      exfalso
      by_cases h2 : (store.find? (isRecentRejectedFor credit.uid now)).isSome
      · simp [create_credit_request, h1, h2] at hEq
      · simp [create_credit_request, h1, h2] at hEq
    · rintro ⟨c, hc, huid, hst⟩
      exact absurd ((isActiveOrPendingFor_iff credit.uid c).mpr ⟨huid, hst⟩) (hnone c hc)

/-- C4: when no blocking-status request is stored for the uid,
`create_credit_request` fails with the cooldown business-rule violation
exactly when a `rejected` request for the uid has
`otpTimeStamp ≥ now - 180 days` (inclusive bound), and otherwise inserts
the request with `status` set to `pending`. -/
theorem create_credit_request_cooldown (store : List CreditDoc) (now : Int)
    (credit : CreditDoc)
    (hnb : ∀ c ∈ store, ¬ isBlockingFor credit.uid c = true) :
    (create_credit_request store now credit
        = Except.error ⟨"Debes esperar 6 meses para pedir tu crédito.", ErrorTypes.bussiness⟩
      ↔ ∃ c ∈ store, c.uid = credit.uid ∧ c.status = some StatusEnum.rejected ∧
          now - 180 * secondsPerDay ≤ c.otpTimeStamp) ∧
    ((∀ c ∈ store, ¬(c.uid = credit.uid ∧ c.status = some StatusEnum.rejected ∧
        now - 180 * secondsPerDay ≤ c.otpTimeStamp)) →
      create_credit_request store now credit
        = Except.ok (store ++ [{ credit with status := some StatusEnum.pending }])) := by
  have h1 : store.find? (isActiveOrPendingFor credit.uid) = none := by
    rw [List.find?_eq_none]
    intro c hc hp
    apply hnb c hc
    rw [isActiveOrPendingFor_iff] at hp
    rw [isBlockingFor_iff]
    tauto
  constructor
  · cases h2 : store.find? (isRecentRejectedFor credit.uid now) with
    | some c =>
      have hmem := List.mem_of_find?_eq_some h2
      have hp := List.find?_some h2
      rw [isRecentRejectedFor_iff] at hp
      constructor
      · intro _
        exact ⟨c, hmem, hp⟩
      · intro _
        simp [create_credit_request, h1, h2]
    | none =>
      have hnone : ∀ c ∈ store, ¬ isRecentRejectedFor credit.uid now c = true :=
        List.find?_eq_none.mp h2
      constructor
      · intro hEq
        exfalso
        simp [create_credit_request, h1, h2] at hEq
      · rintro ⟨c, hc, huid, hst, hts⟩
        exact absurd ((isRecentRejectedFor_iff credit.uid now c).mpr ⟨huid, hst, hts⟩)
          (hnone c hc)
  · intro hnr
    have h2 : store.find? (isRecentRejectedFor credit.uid now) = none := by
      rw [List.find?_eq_none]
      intro c hc hp
      rw [isRecentRejectedFor_iff] at hp
      exact hnr c hc hp
    simp [create_credit_request, h1, h2]

/-- C4 witness: with `now` at day 200, a rejection whose OTP timestamp is
179 days old (day 21) trips the cooldown, while one 181 days old (day 19)
lets the request through as a new `pending` request. -/
theorem create_credit_request_cooldown_witness :
    (create_credit_request [sampleCredit "u1" (some StatusEnum.rejected) (21 * secondsPerDay)]
        (200 * secondsPerDay) (sampleCredit "u1" none (200 * secondsPerDay))
      = Except.error ⟨"Debes esperar 6 meses para pedir tu crédito.", ErrorTypes.bussiness⟩) ∧
    (create_credit_request [sampleCredit "u1" (some StatusEnum.rejected) (19 * secondsPerDay)]
        (200 * secondsPerDay) (sampleCredit "u1" none (200 * secondsPerDay))
      = Except.ok [sampleCredit "u1" (some StatusEnum.rejected) (19 * secondsPerDay),
          sampleCredit "u1" (some StatusEnum.pending) (200 * secondsPerDay)]) := by
  constructor
  · exact (create_credit_request_cooldown _ _ _ (by decide)).1.mpr (by decide)
  · exact (create_credit_request_cooldown _ _ _ (by decide)).2 (by decide)

/-- C5: with `now` on civil day `d` (at `tod` seconds into the day),
`request_extension_credit_payment` fails with the no-active-credit
violation when no `active` request is stored for the uid; with an active
request found, it fails with the window-closed violation exactly when the
due date's civil day is yesterday or earlier (`≤ d - 1`), and when the due
date is today or later it sets `extensionRequested := true` on that
request and persists the update. -/
theorem request_extension_spec (store : List CreditDoc) (uid : String) (d tod : Int)
    (h0 : 0 ≤ tod) (h1 : tod < secondsPerDay) :
    (store.find? (isActiveFor uid) = none →
      request_extension_credit_payment store (d * secondsPerDay + tod) uid
        = Except.error ⟨"Este usuario no tiene un credito activo", ErrorTypes.bussiness⟩) ∧
    (∀ c, store.find? (isActiveFor uid) = some c →
      (request_extension_credit_payment store (d * secondsPerDay + tod) uid
          = Except.error ⟨"Este credito no es valido para pedir extension de cupo",
              ErrorTypes.bussiness⟩
        ↔ daysFromCivil c.fechaCuota ≤ d - 1) ∧
      (d ≤ daysFromCivil c.fechaCuota →
        request_extension_credit_payment store (d * secondsPerDay + tod) uid
          = Except.ok (replaceFirst (isActiveFor uid)
              { c with extensionRequested := some true } store))) := by
  have hsd : secondsPerDay = (86400 : Int) := rfl
  have h1' : tod < 86400 := by rw [hsd] at h1; exact h1
  constructor
  · intro hnone
    simp [request_extension_credit_payment, hnone]
  · intro c hc
    have key : (strptimeDMY c.fechaCuota ≤ d * secondsPerDay + tod - secondsPerDay) ↔
        (daysFromCivil c.fechaCuota ≤ d - 1) := by
      rw [strptimeDMY, hsd]
      generalize daysFromCivil c.fechaCuota = D
      omega
    constructor
    · by_cases hD : daysFromCivil c.fechaCuota ≤ d - 1
      · simp only [request_extension_credit_payment, hc]
        rw [if_pos (key.mpr hD)]
        simp [hD]
      · simp only [request_extension_credit_payment, hc]
        rw [if_neg (fun hcc => hD (key.mp hcc))]
        simp [hD]
    · intro hd
      have hD : ¬ daysFromCivil c.fechaCuota ≤ d - 1 := by omega
      simp only [request_extension_credit_payment, hc]
      rw [if_neg (fun hcc => hD (key.mp hcc))]

/-- C5 witness: with the due date 1970-01-01 (civil day 0), the extension
is refused when "today" is day 1 (due date was exactly yesterday), granted
when "today" is day 0 (due date is today), and refused with the
no-active-credit violation on an empty store. -/
theorem request_extension_spec_witness :
    (request_extension_credit_payment
        [{ sampleCredit "u1" (some StatusEnum.active) 0 with fechaCuota := ⟨1, 1, 1970⟩ }]
        (1 * secondsPerDay + 100) "u1"
      = Except.error ⟨"Este credito no es valido para pedir extension de cupo",
          ErrorTypes.bussiness⟩) ∧
    (request_extension_credit_payment
        [{ sampleCredit "u1" (some StatusEnum.active) 0 with fechaCuota := ⟨1, 1, 1970⟩ }]
        (0 * secondsPerDay + 100) "u1"
      = Except.ok [{ sampleCredit "u1" (some StatusEnum.active) 0 with
          fechaCuota := ⟨1, 1, 1970⟩, extensionRequested := some true }]) ∧
    (request_extension_credit_payment [] (0 * secondsPerDay + 100) "u1"
      = Except.error ⟨"Este usuario no tiene un credito activo", ErrorTypes.bussiness⟩) := by
  refine ⟨?_, ?_, ?_⟩
  · exact ((request_extension_spec
      [{ sampleCredit "u1" (some StatusEnum.active) 0 with fechaCuota := ⟨1, 1, 1970⟩ }]
      "u1" 1 100 (by decide) (by decide)).2
        { sampleCredit "u1" (some StatusEnum.active) 0 with fechaCuota := ⟨1, 1, 1970⟩ }
        (by decide)).1.mpr (by decide)
  · exact ((request_extension_spec
      [{ sampleCredit "u1" (some StatusEnum.active) 0 with fechaCuota := ⟨1, 1, 1970⟩ }]
      "u1" 0 100 (by decide) (by decide)).2
        { sampleCredit "u1" (some StatusEnum.active) 0 with fechaCuota := ⟨1, 1, 1970⟩ }
        (by decide)).2 (by decide)
  · exact (request_extension_spec [] "u1" 0 100 (by decide) (by decide)).1 (by decide)

theorem countP_eraseP_self {α : Type} (p : α → Bool) (l : List α) :
    (l.eraseP p).countP p = l.countP p - 1 := by
  induction l with
  | nil => simp
  | cons a l ih =>
    by_cases h : p a = true
    · rw [List.eraseP_cons_of_pos h]
      have h2 : List.countP p (a :: l) = List.countP p l + 1 :=
        List.countP_cons_of_pos _ _ h
      omega
    · rw [List.eraseP_cons_of_neg h]
      have h2 : List.countP p (a :: l) = List.countP p l :=
        List.countP_cons_of_neg _ _ h
      have h3 : List.countP p (a :: l.eraseP p) = List.countP p (l.eraseP p) :=
        List.countP_cons_of_neg _ _ h
      omega

theorem otpInsert_countP (otps : List OTPDoc) (uid : String) (otp : OTPDoc)
    (hou : otp.uid = uid)
    (h : otps.countP (fun r => r.uid = uid) ≤ 1) :
    (otpInsert otps otp).countP (fun r => r.uid = uid) = 1 := by
  subst hou
  unfold otpInsert
  rw [List.countP_append, countP_eraseP_self]
  simp
  omega

theorem otpInsert_find? (otps : List OTPDoc) (uid : String) (otp : OTPDoc)
    (hou : otp.uid = uid)
    (h : otps.countP (fun r => r.uid = uid) ≤ 1) :
    (otpInsert otps otp).find? (fun r => r.uid = uid) = some otp := by
  subst hou
  have h0 : (otps.eraseP (fun r => r.uid = otp.uid)).countP (fun r => r.uid = otp.uid)
      = 0 := by
    rw [countP_eraseP_self]
    omega
  have hnone : (otps.eraseP (fun r => r.uid = otp.uid)).find? (fun r => r.uid = otp.uid)
      = none := by
    rw [List.find?_eq_none]
    intro x hx
    exact List.countP_eq_zero.mp h0 x hx
  unfold otpInsert
  rw [List.find?_append, hnone]
  simp

/-- C6: a sequential OTP issuance for a uid with a registered user, run on
a store holding at most one record for that uid, completes with Python
value `True` and leaves exactly one OTPRecord for the uid — the one
carrying the code and timestamp generated by that issuance; a second
consecutive issuance again leaves exactly one record, now holding the
second code and timestamp. -/
theorem send_otp_single_record (users : List UserDoc) (otps : List OTPDoc)
    (uid otpCode : String) (now : Int) (smsResult : Option SentDetails)
    (hu : (users.find? (fun u => u.uid = uid)).isSome)
    (h1 : otps.countP (fun r => r.uid = uid) ≤ 1) :
    (send_otp users otps uid otpCode now smsResult).1 = some true ∧
    (send_otp users otps uid otpCode now smsResult).2.countP (fun r => r.uid = uid) = 1 ∧
    (send_otp users otps uid otpCode now smsResult).2.find? (fun r => r.uid = uid)
      = some { uid := uid, code := otpCode, sentTimeStamp := now } ∧
    (∀ otpCode2 : String, ∀ now2 : Int, ∀ smsResult2 : Option SentDetails,
      (send_otp users (send_otp users otps uid otpCode now smsResult).2 uid otpCode2 now2
          smsResult2).2.countP (fun r => r.uid = uid) = 1 ∧
      (send_otp users (send_otp users otps uid otpCode now smsResult).2 uid otpCode2 now2
          smsResult2).2.find? (fun r => r.uid = uid)
        = some { uid := uid, code := otpCode2, sentTimeStamp := now2 }) := by
  obtain ⟨userDb, hfind⟩ := Option.isSome_iff_exists.mp hu
  have huid : userDb.uid = uid := by
    have := List.find?_some hfind
    simpa using this
  have hstep : ∀ (c : String) (n : Int) (sms : Option SentDetails) (store : List OTPDoc),
      send_otp users store uid c n sms
        = (some true, otpInsert store { uid := uid, code := c, sentTimeStamp := n }) := by
    intro c n sms store
    simp [send_otp, hfind, huid]
  have hmain : ∀ (c : String) (n : Int) (sms : Option SentDetails) (store : List OTPDoc),
      store.countP (fun r => r.uid = uid) ≤ 1 →
      (send_otp users store uid c n sms).2.countP (fun r => r.uid = uid) = 1 ∧
      (send_otp users store uid c n sms).2.find? (fun r => r.uid = uid)
        = some { uid := uid, code := c, sentTimeStamp := n } := by
    intro c n sms store hle
    rw [hstep]
    exact ⟨otpInsert_countP store uid { uid := uid, code := c, sentTimeStamp := n } rfl hle,
      otpInsert_find? store uid { uid := uid, code := c, sentTimeStamp := n } rfl hle⟩
  refine ⟨by rw [hstep], (hmain otpCode now smsResult otps h1).1,
    (hmain otpCode now smsResult otps h1).2, ?_⟩
  intro otpCode2 now2 smsResult2
  exact hmain otpCode2 now2 smsResult2 _ (le_of_eq (hmain otpCode now smsResult otps h1).1)

/-- C6 witness: issuing twice in a row for `"u1"` (starting from an empty
store, user registered, regardless of the gateway outcome) leaves exactly
one record, holding the second code. -/
theorem send_otp_single_record_witness :
    (send_otp [sampleUser "u1"] [] "u1" "111111" 5 none).1 = some true ∧
    (send_otp [sampleUser "u1"]
        (send_otp [sampleUser "u1"] [] "u1" "111111" 5 none).2
        "u1" "222222" 9 none).2.countP (fun r => r.uid = "u1") = 1 ∧
    (send_otp [sampleUser "u1"]
        (send_otp [sampleUser "u1"] [] "u1" "111111" 5 none).2
        "u1" "222222" 9 none).2.find? (fun r => r.uid = "u1")
      = some { uid := "u1", code := "222222", sentTimeStamp := 9 } := by
  have h := send_otp_single_record [sampleUser "u1"] [] "u1" "111111" 5 none
    (by decide) (by decide)
  exact ⟨h.1, (h.2.2.2 "222222" 9 none).1, (h.2.2.2 "222222" 9 none).2⟩

/-- C3: with at most one stored record for the uid, `verify_otp` fails
exactly when there is no record for the uid or the stored code differs
from the supplied one; every failure carries error type `invalid`
(`InvalidCode`); and a successful verification deletes the record, so an
immediately repeated verification with the same code fails with the
no-record `invalid` error (single use). -/
theorem verify_otp_spec (otps : List OTPDoc) (uid code : String)
    (h1 : otps.countP (fun r => r.uid = uid) ≤ 1) :
    ((∃ e, (verify_otp otps uid code).1 = Except.error e) ↔
      (otps.find? (fun r => r.uid = uid) = none ∨
        ∃ r, otps.find? (fun r => r.uid = uid) = some r ∧ r.code ≠ code)) ∧
    (∀ e, (verify_otp otps uid code).1 = Except.error e →
      e.errorType = ErrorTypes.invalid) ∧
    ((verify_otp otps uid code).1 = Except.ok () →
      (verify_otp otps uid code).2.find? (fun r => r.uid = uid) = none ∧
      (verify_otp (verify_otp otps uid code).2 uid code).1
        = Except.error ⟨"Pide un nuevo codigo, intenta de nuevo.", ErrorTypes.invalid⟩) := by
  cases hf : otps.find? (fun r => r.uid = uid) with
  | none =>
    refine ⟨?_, ?_, ?_⟩
    · simp [verify_otp, hf]
    · intro e he
      simp [verify_otp, hf] at he
      rw [← he]
    · intro hok
      simp [verify_otp, hf] at hok
  | some r =>
    by_cases hc : r.code = code
    · have hmem := List.mem_of_find?_eq_some hf
      have hpr := List.find?_some hf
      have hcnt : 0 < otps.countP (fun x => x.uid = uid) :=
        List.countP_pos_iff.mpr ⟨r, hmem, hpr⟩
      have hdel : (otpDelete otps uid).countP (fun x => x.uid = uid) = 0 := by
        unfold otpDelete
        rw [countP_eraseP_self]
        omega
      have hdelf : (otpDelete otps uid).find? (fun x => x.uid = uid) = none := by
        rw [List.find?_eq_none]
        intro x hx
        exact List.countP_eq_zero.mp hdel x hx
      refine ⟨?_, ?_, ?_⟩
      · constructor
        · rintro ⟨e, he⟩
          simp [verify_otp, hf, hc] at he
        · rintro (h | ⟨r', hr', hne⟩)
          · exact absurd h (by simp)
          · cases hr'
            exact absurd hc hne
      · intro e he
        simp [verify_otp, hf, hc] at he
      · intro _
        have hres : (verify_otp otps uid code).2 = otpDelete otps uid := by
          simp [verify_otp, hf, hc]
        rw [hres]
        exact ⟨hdelf, by simp [verify_otp, hdelf]⟩
    · refine ⟨?_, ?_, ?_⟩
      · constructor
        · intro _
          exact Or.inr ⟨r, rfl, hc⟩
        · intro _
          refine ⟨⟨"El código es incorrecto, intenta de nuevo.", ErrorTypes.invalid⟩, ?_⟩
          simp [verify_otp, hf, hc]
      · intro e he
        simp [verify_otp, hf, hc] at he
        simp [← he]
      · intro hok
        simp [verify_otp, hf, hc] at hok

/-- C3 witness: one stored record for `"u1"` with code `"111111"`;
verification with `"222222"` fails with an `invalid` error, verification
with `"111111"` succeeds and a repeat of it fails with the no-record
`invalid` error. -/
theorem verify_otp_spec_witness :
    ((∃ e, (verify_otp [{ uid := "u1", code := "111111", sentTimeStamp := 0 }] "u1"
        "222222").1 = Except.error e)) ∧
    ((verify_otp (verify_otp [{ uid := "u1", code := "111111", sentTimeStamp := 0 }] "u1"
          "111111").2 "u1" "111111").1
      = Except.error ⟨"Pide un nuevo codigo, intenta de nuevo.", ErrorTypes.invalid⟩) := by
  constructor
  · exact (verify_otp_spec [{ uid := "u1", code := "111111", sentTimeStamp := 0 }] "u1"
      "222222" (by decide)).1.mpr (by decide)
  · exact ((verify_otp_spec [{ uid := "u1", code := "111111", sentTimeStamp := 0 }] "u1"
      "111111" (by decide)).2.2 (by rfl)).2

/-- C10: a failed `verify_otp` leaves the OTP store unchanged — no record
is deleted or modified — and after any wrong guess the correct code still
verifies; the record is removed only on the success path. -/
theorem verify_otp_failure_preserves (otps : List OTPDoc) (uid code : String) :
    (∀ e, (verify_otp otps uid code).1 = Except.error e →
      (verify_otp otps uid code).2 = otps) ∧
    (∀ r, otps.find? (fun x => x.uid = uid) = some r → ∀ bad : String, bad ≠ r.code →
      (verify_otp otps uid bad).2 = otps ∧
      (∃ e, (verify_otp otps uid bad).1 = Except.error e) ∧
      (verify_otp (verify_otp otps uid bad).2 uid r.code).1 = Except.ok ()) := by
  constructor
  · intro e he
    cases hf : otps.find? (fun r => r.uid = uid) with
    | none => simp [verify_otp, hf]
    | some r =>
      by_cases hc : r.code = code
      · simp [verify_otp, hf, hc] at he
      · simp [verify_otp, hf, hc]
  · intro r hf bad hbad
    have hbad' : ¬ r.code = bad := fun h => hbad h.symm
    refine ⟨by simp [verify_otp, hf, hbad'],
      ⟨⟨"El código es incorrecto, intenta de nuevo.", ErrorTypes.invalid⟩,
        by simp [verify_otp, hf, hbad']⟩, ?_⟩
    have hres : (verify_otp otps uid bad).2 = otps := by simp [verify_otp, hf, hbad']
    rw [hres]
    simp [verify_otp, hf]

/-- C10 witness: with one record stored for `"u1"`, the wrong guess
`"999999"` leaves the store unchanged and the correct code `"111111"`
still verifies afterward. -/
theorem verify_otp_failure_preserves_witness :
    ((verify_otp [{ uid := "u1", code := "111111", sentTimeStamp := 0 }] "u1" "999999").2
      = [{ uid := "u1", code := "111111", sentTimeStamp := 0 }]) ∧
    ((verify_otp (verify_otp [{ uid := "u1", code := "111111", sentTimeStamp := 0 }] "u1"
        "999999").2 "u1" "111111").1 = Except.ok ()) := by
  have h := (verify_otp_failure_preserves
      [{ uid := "u1", code := "111111", sentTimeStamp := 0 }] "u1" "999999").2
      { uid := "u1", code := "111111", sentTimeStamp := 0 } (by decide) "999999" (by decide)
  exact ⟨h.1, h.2.2⟩

/-- C2: the source contradicts the claim.  With a registered user and a
failed SMS delivery (the gateway helper caught the exception and returned
`None`), `send_otp` still persists the OTPRecord and returns `True`
instead of surfacing `DeliveryFailed`; and with no user it returns `None`
instead of letting the `NotFound`-style error escape — its own
`except Exception` handler swallows the `CustomError` it just raised. -/
theorem send_otp_swallows_failures :
    (send_otp [sampleUser "u1"] [] "u1" "123456" 0 none
      = (some true, [{ uid := "u1", code := "123456", sentTimeStamp := 0 }])) ∧
    (send_otp [] [] "u1" "123456" 0 none = (none, [])) :=
  ⟨rfl, rfl⟩

/-- C7 counterexample: two rejected requests for `"u1"`, both inside the
180-day window, the first-stored one older (day 100) than the
second-stored one (day 190); at `now` = day 200 `get_credit` returns the
first-stored, older record, not the most recent one the claim requires. -/
theorem get_credit_not_most_recent :
    (get_credit [sampleCredit "u1" (some StatusEnum.rejected) (100 * secondsPerDay),
        sampleCredit "u1" (some StatusEnum.rejected) (190 * secondsPerDay)]
        (200 * secondsPerDay) "u1"
      = some (sampleCredit "u1" (some StatusEnum.rejected) (100 * secondsPerDay))) ∧
    (100 * secondsPerDay : Int) < 190 * secondsPerDay ∧
    isRecentRejectedFor "u1" (200 * secondsPerDay)
        (sampleCredit "u1" (some StatusEnum.rejected) (190 * secondsPerDay)) = true := by
  refine ⟨by rfl, by decide, by decide⟩

/-- C7 (amended): `get_credit` returns a stored request for the uid that
either has a blocking status, or — when no blocking request is stored for
the uid — is a rejected request with `otpIssuedAt` within the last 180
days (inclusive); it returns `none` exactly when neither exists.  In the
rejected fallback it returns the FIRST such record in insertion order
(`find_one` without a sort), not necessarily the most recent one. -/
theorem get_credit_spec (store : List CreditDoc) (now : Int) (uid : String) :
    (∀ c, get_credit store now uid = some c → c ∈ store ∧
      (isBlockingFor uid c = true ∨
        (isRecentRejectedFor uid now c = true ∧
          ∀ c' ∈ store, ¬ isBlockingFor uid c' = true))) ∧
    (get_credit store now uid = none →
      ∀ c ∈ store, ¬ isBlockingFor uid c = true ∧ ¬ isRecentRejectedFor uid now c = true) ∧
    (∀ l1 c l2, store = l1 ++ c :: l2 →
      (∀ c' ∈ store, ¬ isBlockingFor uid c' = true) →
      (∀ c' ∈ l1, ¬ isRecentRejectedFor uid now c' = true) →
      isRecentRejectedFor uid now c = true →
      get_credit store now uid = some c) := by
  refine ⟨?_, ?_, ?_⟩
  · intro c hc
    cases h1 : store.find? (isBlockingFor uid) with
    | some a =>
      rw [get_credit, h1] at hc
      cases hc
      exact ⟨List.mem_of_find?_eq_some h1, Or.inl (List.find?_some h1)⟩
    | none =>
      rw [get_credit, h1] at hc
      exact ⟨List.mem_of_find?_eq_some hc,
        Or.inr ⟨List.find?_some hc, List.find?_eq_none.mp h1⟩⟩
  · intro hnone c hc
    cases h1 : store.find? (isBlockingFor uid) with
    | some a =>
      rw [get_credit, h1] at hnone
      cases hnone
    | none =>
      rw [get_credit, h1] at hnone
      exact ⟨List.find?_eq_none.mp h1 c hc, List.find?_eq_none.mp hnone c hc⟩
  · intro l1 c l2 heq hnb hl1 hc
    have h1 : store.find? (isBlockingFor uid) = none := List.find?_eq_none.mpr hnb
    rw [get_credit, h1, heq]
    have hl1n : l1.find? (isRecentRejectedFor uid now) = none :=
      List.find?_eq_none.mpr hl1
    rw [List.find?_append, hl1n]
    simp [hc]

/-- C7 amended-claim witness: a single in-window rejected request for
`"u1"` and nothing blocking, so the fallback returns it. -/
theorem get_credit_spec_witness :
    get_credit [sampleCredit "u1" (some StatusEnum.rejected) (100 * secondsPerDay)]
        (200 * secondsPerDay) "u1"
      = some (sampleCredit "u1" (some StatusEnum.rejected) (100 * secondsPerDay)) :=
  (get_credit_spec [sampleCredit "u1" (some StatusEnum.rejected) (100 * secondsPerDay)]
      (200 * secondsPerDay) "u1").2.2 []
    (sampleCredit "u1" (some StatusEnum.rejected) (100 * secondsPerDay)) [] rfl
    (by decide) (by decide) (by decide)

/-- C8: the claim is the documented intent, but the source cannot exhibit
it — `_build_user_query` executes `query["$and"] = [query, ...]`, making
the filter dict contain itself, and a circular document cannot be
BSON-encoded, so every call of `all_users` with a non-empty `searchTerm`
raises at the first driver call instead of filtering.  With an empty
`searchTerm` (the only non-circular query) the rest behaves as described:
the admin account is excluded, `total` counts the single match and the
page holds exactly that user. -/
theorem all_users_search_circular :
    (all_users [sampleUser "u1", { sampleUser "ua" with admin := some true }] [] []
        "smith" false false 1 10
      = Except.error DriverError.circularDocument) ∧
    ((build_user_query "smith" false false).selfReferential = true) ∧
    (all_users [sampleUser "u1", { sampleUser "ua" with admin := some true }] [] []
        "" false false 1 10
      = Except.ok
          { total := 1
            users := add_related_data_to_users [sampleUser "u1"] [] [] }) :=
  ⟨rfl, rfl, rfl⟩

/-- C9 counterexample: a user with 101 stored credit requests gets only
100 of them attached by the enrichment (the repository's default
`limit = 100`), so the "full, unbounded history" the claim requires is
not returned. -/
theorem add_related_data_truncates :
    ((add_related_data_to_users [sampleUser "u1"]
        (List.replicate 101 (sampleCredit "u1" (some StatusEnum.paid) 0)) []).map
          (fun e => e.credits.length) = [100]) ∧
    (((List.replicate 101 (sampleCredit "u1" (some StatusEnum.paid) 0)).filter
        (fun c => c.uid = "u1")).length = 101) := by
  constructor
  · rfl
  · rfl

/-- C9 (amended): the enrichment attaches, per returned user, the first
100 stored CreditRequests and the first 100 stored messages for that uid
(the repository default limit) — the full history exactly when the user
has at most 100 of each. -/
theorem add_related_data_spec (users : List UserDoc) (creditStore : List CreditDoc)
    (msgStore : List MessageDoc) :
    ((add_related_data_to_users users creditStore msgStore).length = users.length) ∧
    (∀ u ∈ users, ∃ e ∈ add_related_data_to_users users creditStore msgStore,
      e.user = u ∧
      e.credits = (creditStore.filter (fun c => c.uid = u.uid)).take 100 ∧
      e.messages = (msgStore.filter (fun m => m.uid = u.uid)).take 100 ∧
      ((creditStore.filter (fun c => c.uid = u.uid)).length ≤ 100 →
        e.credits = creditStore.filter (fun c => c.uid = u.uid)) ∧
      ((msgStore.filter (fun m => m.uid = u.uid)).length ≤ 100 →
        e.messages = msgStore.filter (fun m => m.uid = u.uid))) := by
  constructor
  · exact List.length_map _ _
  · intro u hu
    refine ⟨{ user := u
              credits := ((creditStore.filter (fun c => c.uid = u.uid)).drop 0).take
                relatedQueryLimit
              messages := ((msgStore.filter (fun m => m.uid = u.uid)).drop 0).take
                relatedQueryLimit },
      List.mem_map_of_mem _ hu, rfl, rfl, rfl, ?_, ?_⟩
    · intro hle
      simpa using List.take_of_length_le hle
    · intro hle
      simpa using List.take_of_length_le hle

/-- C9 amended-claim witness: one user with a single stored credit — the
enrichment returns the full (one-element) history. -/
theorem add_related_data_spec_witness :
    (add_related_data_to_users [sampleUser "u1"]
        [sampleCredit "u1" (some StatusEnum.paid) 0] []).length = 1 ∧
    (∃ e ∈ add_related_data_to_users [sampleUser "u1"]
        [sampleCredit "u1" (some StatusEnum.paid) 0] [],
      e.user = sampleUser "u1" ∧
      e.credits = ([sampleCredit "u1" (some StatusEnum.paid) 0].filter
        (fun c => c.uid = (sampleUser "u1").uid)).take 100 ∧
      e.messages = (([] : List MessageDoc).filter
        (fun m => m.uid = (sampleUser "u1").uid)).take 100 ∧
      (([sampleCredit "u1" (some StatusEnum.paid) 0].filter
          (fun c => c.uid = (sampleUser "u1").uid)).length ≤ 100 →
        e.credits = [sampleCredit "u1" (some StatusEnum.paid) 0].filter
          (fun c => c.uid = (sampleUser "u1").uid)) ∧
      ((([] : List MessageDoc).filter (fun m => m.uid = (sampleUser "u1").uid)).length ≤ 100 →
        e.messages = ([] : List MessageDoc).filter
          (fun m => m.uid = (sampleUser "u1").uid))) := by
  have h := add_related_data_spec [sampleUser "u1"]
    [sampleCredit "u1" (some StatusEnum.paid) 0] []
  exact ⟨h.1, h.2 (sampleUser "u1") (by decide)⟩

end OlaFintech
